import Mathlib

/-!
Verification of `duckietown-challenges` (Python) against its natural-language
specification.  The Python modules under `src/duckietown_challenges/` are
shallowly embedded below: dictionaries become association lists (keys unique,
insertion order preserved, as in Python), exceptions become `Except`/`Option`
results, and the handshake wrappers become pure functions over an explicit
description of their external effects (environment variables, files appearing,
the user-supplied `prepare`/`score`/`run` callbacks).
-/

namespace DTC

/-! ### Constants (`challenge.py`, `cie_concrete.py`) -/

def STATE_START : String := "START"

def STATE_ERROR : String := "ERROR"

def STATE_SUCCESS : String := "SUCCESS"

def STATE_FAILED : String := "FAILED"

/-- Modelled from the spec: `ChallengesConstants.ALLOWED_JOB_STATUS` lives in
`challenges_constants.py`, which is not among the repository files provided;
the spec describes "the fixed set of allowed job statuses (e.g. success,
failed, error, aborted, host-error, outdated, ...)". -/
def ALLOWED_JOB_STATUS : List String :=
  ["success", "failed", "error", "aborted", "host-error", "outdated"]

/-- Modelled from the spec: `ChallengesConstants.STATUS_ABORTED`, the special
"treat as not yet run" marker status named `aborted` by the spec. -/
def STATUS_ABORTED : String := "aborted"

def SUBMISSION_CONTAINER_TAG : String := "SUBMISSION_CONTAINER"

/-! ### Python dictionaries as association lists

A Python `dict` iterates in insertion order and has unique keys.  `dictGet`
is `d[k]` (as an `Option`), `dictMem` is `k in d`, `dictPop` is `d.pop(k)`
(which raises `KeyError` when the key is absent, hence the `Option` result).
-/

abbrev StrDict := List (String × String)

def dictGet (d : StrDict) (k : String) : Option String :=
  (d.find? (fun p => p.1 = k)).map Prod.snd

def dictMem (d : StrDict) (k : String) : Bool :=
  (dictGet d k).isSome

def dictPop (d : StrDict) (k : String) : Option StrDict :=
  if dictMem d k then some (d.filter (fun p => p.1 ≠ k)) else none

/-! ### The transition engine (`challenge.py`, `ChallengeTransitions`) -/

structure Transition where
  first : String
  condition : String
  second : String
deriving Repr, DecidableEq

/-- `ChallengeTransitions.__init__` state: the declared transition list (in
declaration order) and the declared step names. -/
structure ChallengeTransitions where
  transitions : List Transition
  steps : List String
deriving Repr, DecidableEq

/-- Exceptions that the embedded fragments of `challenge.py` can raise. -/
inductive PyError where
  | keyError (k : String)
  | assertionError
deriving Repr, DecidableEq

def terminalStates : List String := [STATE_ERROR, STATE_FAILED, STATE_SUCCESS]

/-- Python's `str.lower()` (for the ASCII state names it is applied to). -/
def pyLower (s : String) : String := ⟨s.data.map Char.toLower⟩

/-- Python's `status.pop(k)` with no default: `KeyError` when `k` is absent. -/
def popOrErr (st : StrDict) (k : String) : Except PyError StrDict :=
  match dictPop st k with
  | some st2 => Except.ok st2
  | none => Except.error (PyError.keyError k)

/-- One iteration of the sanitization loop of `get_next_steps`
(challenge.py lines 342-350): for the snapshot item `(k, ks)`,

    if k != STATE_START and k not in self.steps: status.pop(k)
    if ks not in ChallengesConstants.ALLOWED_JOB_STATUS: status.pop(k)

Note the second `if` is not an `elif`: when both conditions hold the second
`status.pop(k)` runs on a dict that no longer holds `k`. -/
def sanitizeItem (steps : List String) (st : StrDict) (kv : String × String) :
    Except PyError StrDict :=
  match (if kv.1 ≠ STATE_START ∧ kv.1 ∉ steps then popOrErr st kv.1
         else Except.ok st) with
  | Except.error e => Except.error e
  | Except.ok st1 =>
    if kv.2 ∉ ALLOWED_JOB_STATUS then popOrErr st1 kv.1
    else Except.ok st1

/-- The sanitization loop: iterate over the snapshot `list(status.items())`
while mutating the dict. -/
def sanitize (steps : List String) (items : List (String × String))
    (st : StrDict) : Except PyError StrDict :=
  match items with
  | [] => Except.ok st
  | kv :: rest =>
    match sanitizeItem steps st kv with
    | Except.error e => Except.error e
    | Except.ok st1 => sanitize steps rest st1

/-- Result triple of `get_next_steps`: `(finished, outcome, to_activate)`. -/
structure NextSteps where
  finished : Bool
  outcome : Option String
  toActivate : List String
deriving Repr, DecidableEq

/-- The transition loop of `get_next_steps` (challenge.py lines 352-369),
applied to the sanitized status `st`; `acc` is the `to_activate` accumulator. -/
def runTransitions (st : StrDict) : List Transition → List String → NextSteps
  | [], acc => ⟨false, none, acc⟩
  | t :: ts, acc =>
    if dictGet st t.first = some t.condition then
      if dictMem st t.second = true ∧ dictGet st t.second ≠ some STATUS_ABORTED then
        runTransitions st ts acc
      else
        if t.second ∈ terminalStates then
          ⟨true, some (pyLower t.second), []⟩
        else
          runTransitions st ts (acc ++ [t.second])
    else runTransitions st ts acc

/-- `ChallengeTransitions.get_next_steps` (challenge.py lines 324-369): the
two `assert`s, the sanitization of a copy of the argument, and the transition
loop. -/
def get_next_steps (ct : ChallengeTransitions) (status : StrDict) :
    Except PyError NextSteps :=
  if dictMem status STATE_START ≠ true then
    Except.error PyError.assertionError
  else if dictGet status STATE_START ≠ some "success" then
    Except.error PyError.assertionError
  else
    match sanitize ct.steps status status with
    | Except.error e => Except.error e
    | Except.ok st => Except.ok (runTransitions st ct.transitions [])

/-! ### A heap model for C9

The Python method mutates dictionaries in place; `status = dict(**status)`
(challenge.py line 341) makes the subsequent `status.pop(k)` calls act on a
fresh object.  To state the frame property we re-run the same code over an
explicit heap of dictionary objects: references are indices, `heapAlloc` is
`dict(**status)`, and the sanitization pops write through the new reference
only. -/

structure PyHeap where
  cells : List StrDict
deriving Repr

def heapRead (h : PyHeap) (r : Nat) : StrDict := (h.cells[r]?).getD []

def heapWrite (h : PyHeap) (r : Nat) (v : StrDict) : PyHeap := ⟨h.cells.set r v⟩

def heapAlloc (h : PyHeap) (v : StrDict) : Nat × PyHeap :=
  (h.cells.length, ⟨h.cells ++ [v]⟩)

/-- `sanitizeItem` acting in place on the dictionary object `r`. -/
def sanitizeItemHeap (steps : List String) (r : Nat) (h : PyHeap)
    (kv : String × String) : PyHeap × Option PyError :=
  let afterFirst : PyHeap × Option PyError :=
    if kv.1 ≠ STATE_START ∧ kv.1 ∉ steps then
      match dictPop (heapRead h r) kv.1 with
      | some st2 => (heapWrite h r st2, none)
      | none => (h, some (PyError.keyError kv.1))
    else (h, none)
  match afterFirst with
  | (h1, some e) => (h1, some e)
  | (h1, none) =>
    if kv.2 ∉ ALLOWED_JOB_STATUS then
      match dictPop (heapRead h1 r) kv.1 with
      | some st2 => (heapWrite h1 r st2, none)
      | none => (h1, some (PyError.keyError kv.1))
    else (h1, none)

/-- The sanitization loop acting in place on the dictionary object `r`. -/
def sanitizeHeap (steps : List String) (items : List (String × String))
    (r : Nat) (h : PyHeap) : PyHeap × Option PyError :=
  match items with
  | [] => (h, none)
  | kv :: rest =>
    match sanitizeItemHeap steps r h kv with
    | (h1, some e) => (h1, some e)
    | (h1, none) => sanitizeHeap steps rest r h1

/-- `get_next_steps` over the heap: the caller passes a reference `r` to its
own status dictionary; line 341 allocates the copy `r2`, which is the only
object the sanitization loop writes. -/
def get_next_steps_heap (ct : ChallengeTransitions) (h : PyHeap) (r : Nat) :
    Except PyError NextSteps × PyHeap :=
  let status0 := heapRead h r
  if dictMem status0 STATE_START ≠ true then
    (Except.error PyError.assertionError, h)
  else if dictGet status0 STATE_START ≠ some "success" then
    (Except.error PyError.assertionError, h)
  else
    let a := heapAlloc h status0
    match sanitizeHeap ct.steps status0 a.1 a.2 with
    | (h3, some e) => (Except.error e, h3)
    | (h3, none) => (Except.ok (runTransitions (heapRead h3 a.1) ct.transitions []), h3)

/-! ### A YAML value model for the parsers of `challenge.py` -/

inductive Yaml where
  | str (s : String)
  | num (n : Int)
  | bool (b : Bool)
  | list (xs : List Yaml)
  | dict (kvs : List (String × Yaml))
  | null
deriving Repr

mutual

def yamlDecEq : (a b : Yaml) → Decidable (a = b)
  | .str a, .str b =>
    if h : a = b then isTrue (by rw [h]) else isFalse (by intro hc; cases hc; exact h rfl)
  | .num a, .num b =>
    if h : a = b then isTrue (by rw [h]) else isFalse (by intro hc; cases hc; exact h rfl)
  | .bool a, .bool b =>
    if h : a = b then isTrue (by rw [h]) else isFalse (by intro hc; cases hc; exact h rfl)
  | .null, .null => isTrue rfl
  | .list xs, .list ys =>
    match yamlListDecEq xs ys with
    | isTrue h => isTrue (by rw [h])
    | isFalse h => isFalse (by intro hc; cases hc; exact h rfl)
  | .dict xs, .dict ys =>
    match yamlDictDecEq xs ys with
    | isTrue h => isTrue (by rw [h])
    | isFalse h => isFalse (by intro hc; cases hc; exact h rfl)
  | .str _, .num _ => isFalse (by intro hc; cases hc)
  | .str _, .bool _ => isFalse (by intro hc; cases hc)
  | .str _, .list _ => isFalse (by intro hc; cases hc)
  | .str _, .dict _ => isFalse (by intro hc; cases hc)
  | .str _, .null => isFalse (by intro hc; cases hc)
  | .num _, .str _ => isFalse (by intro hc; cases hc)
  | .num _, .bool _ => isFalse (by intro hc; cases hc)
  | .num _, .list _ => isFalse (by intro hc; cases hc)
  | .num _, .dict _ => isFalse (by intro hc; cases hc)
  | .num _, .null => isFalse (by intro hc; cases hc)
  | .bool _, .str _ => isFalse (by intro hc; cases hc)
  | .bool _, .num _ => isFalse (by intro hc; cases hc)
  | .bool _, .list _ => isFalse (by intro hc; cases hc)
  | .bool _, .dict _ => isFalse (by intro hc; cases hc)
  | .bool _, .null => isFalse (by intro hc; cases hc)
  | .list _, .str _ => isFalse (by intro hc; cases hc)
  | .list _, .num _ => isFalse (by intro hc; cases hc)
  | .list _, .bool _ => isFalse (by intro hc; cases hc)
  | .list _, .dict _ => isFalse (by intro hc; cases hc)
  | .list _, .null => isFalse (by intro hc; cases hc)
  | .dict _, .str _ => isFalse (by intro hc; cases hc)
  | .dict _, .num _ => isFalse (by intro hc; cases hc)
  | .dict _, .bool _ => isFalse (by intro hc; cases hc)
  | .dict _, .list _ => isFalse (by intro hc; cases hc)
  | .dict _, .null => isFalse (by intro hc; cases hc)
  | .null, .str _ => isFalse (by intro hc; cases hc)
  | .null, .num _ => isFalse (by intro hc; cases hc)
  | .null, .bool _ => isFalse (by intro hc; cases hc)
  | .null, .list _ => isFalse (by intro hc; cases hc)
  | .null, .dict _ => isFalse (by intro hc; cases hc)

def yamlListDecEq : (a b : List Yaml) → Decidable (a = b)
  | [], [] => isTrue rfl
  | [], _ :: _ => isFalse (by intro hc; cases hc)
  | _ :: _, [] => isFalse (by intro hc; cases hc)
  | x :: xs, y :: ys =>
    match yamlDecEq x y with
    | isFalse h => isFalse (by intro hc; cases hc; exact h rfl)
    | isTrue h1 =>
      match yamlListDecEq xs ys with
      | isTrue h2 => isTrue (by rw [h1, h2])
      | isFalse h2 => isFalse (by intro hc; cases hc; exact h2 rfl)

def yamlDictDecEq : (a b : List (String × Yaml)) → Decidable (a = b)
  | [], [] => isTrue rfl
  | [], _ :: _ => isFalse (by intro hc; cases hc)
  | _ :: _, [] => isFalse (by intro hc; cases hc)
  | (k1, v1) :: xs, (k2, v2) :: ys =>
    match String.decEq k1 k2 with
    | isFalse h => isFalse (by intro hc; cases hc; exact h rfl)
    | isTrue hk =>
      match yamlDecEq v1 v2 with
      | isFalse h => isFalse (by intro hc; cases hc; exact h rfl)
      | isTrue hv =>
        match yamlDictDecEq xs ys with
        | isTrue ht => isTrue (by rw [hk, hv, ht])
        | isFalse h2 => isFalse (by intro hc; cases hc; exact h2 rfl)

end

instance : DecidableEq Yaml := yamlDecEq

/-- YAML dictionary: `d[k]` as an `Option`. -/
def ydictGet (kvs : List (String × Yaml)) (k : String) : Option Yaml :=
  (kvs.find? (fun p => p.1 = k)).map Prod.snd

/-- Python's `d.pop(k)` on a YAML mapping: the popped value and the rest,
`none` for a `KeyError`. -/
def ydictPop (kvs : List (String × Yaml)) (k : String) :
    Option (Yaml × List (String × Yaml)) :=
  match ydictGet kvs k with
  | some v => some (v, kvs.filter (fun p => p.1 ≠ k))
  | none => none

/-- Python's `d.pop(k, default)`. -/
def ydictPopD (kvs : List (String × Yaml)) (k : String) (dflt : Yaml) :
    Yaml × List (String × Yaml) :=
  match ydictPop kvs k with
  | some p => p
  | none => (dflt, kvs)

/-- Exceptions raised by the `from_yaml` parsers. -/
inductive ParseErr where
  | valueError (msg : String)
  | invalidChallengeDescription (msg : String)
  | invalidConfiguration (msg : String)
  | assertionError
deriving Repr, DecidableEq

/-- `utils.wrap_config_reader`: any exception escaping the wrapped reader is
re-raised as `InvalidConfiguration`. -/
def wrap_config_reader {α : Type} (r : Except ParseErr α) : Except ParseErr α :=
  match r with
  | Except.error _ =>
    Except.error (ParseErr.invalidConfiguration "Could not interpret the configuration data")
  | Except.ok v => Except.ok v

/-! ### `Score` and `Scoring` (challenge.py lines 372-440) -/

structure Score where
  name : Yaml
  description : Yaml
  order : Yaml
deriving Repr, DecidableEq

/-- `Score.__init__`: `assert order in ['ascending', 'descending']`. -/
def Score.mk_checked (name description order : Yaml) : Except ParseErr Score :=
  if order = Yaml.str "ascending" ∨ order = Yaml.str "descending" then
    Except.ok ⟨name, description, order⟩
  else Except.error ParseErr.assertionError

/-- `Score.from_yaml` (challenge.py lines 421-440): `name` required
(`KeyError` wrapped to `InvalidChallengeDescription`), `description` defaults
to `None`, `order` defaults to `'ascending'`, extra keys rejected. -/
def Score.from_yaml (data0 : Yaml) : Except ParseErr Score :=
  match data0 with
  | Yaml.dict kvs =>
    match ydictPop kvs "name" with
    | none => Except.error (ParseErr.invalidChallengeDescription "Missing config name")
    | some (name, d1) =>
      let pd := ydictPopD d1 "description" Yaml.null
      let po := ydictPopD pd.2 "order" (Yaml.str "ascending")
      if po.2 ≠ [] then
        Except.error (ParseErr.invalidChallengeDescription "Extra keys in configuration file")
      else Score.mk_checked name pd.1 po.1
  | _ => Except.error (ParseErr.invalidChallengeDescription "Expected dict")

structure Scoring where
  scores : List Score
deriving Repr, DecidableEq

/-- The list comprehension `[Score.from_yaml(_) for _ in scores]`. -/
def mapScores : List Yaml → Except ParseErr (List Score)
  | [] => Except.ok []
  | y :: ys =>
    match Score.from_yaml y with
    | Except.error e => Except.error e
    | Except.ok s =>
      match mapScores ys with
      | Except.error e => Except.error e
      | Except.ok ss => Except.ok (s :: ss)

/-- `Scoring.from_yaml` (challenge.py lines 383-405): pops `scores` (must be
present and a list), parses each entry, rejects extra keys.  There is no
check that the list is non-empty. -/
def Scoring.from_yaml (data0 : Yaml) : Except ParseErr Scoring :=
  match data0 with
  | Yaml.dict kvs =>
    match ydictPop kvs "scores" with
    | none => Except.error (ParseErr.invalidChallengeDescription "Missing config scores")
    | some (scoresY, d1) =>
      match scoresY with
      | Yaml.list ys =>
        match mapScores ys with
        | Except.error e => Except.error e
        | Except.ok ss =>
          if d1 ≠ [] then
            Except.error (ParseErr.invalidChallengeDescription "Extra keys in configuration file")
          else Except.ok ⟨ss⟩
      | _ => Except.error (ParseErr.invalidChallengeDescription "Expected list")
  | _ => Except.error (ParseErr.invalidChallengeDescription "Expected dict")

/-! ### `Build`, `ServiceDefinition`, `EvaluationParameters` -/

structure Build where
  context : Yaml
  dockerfile : Yaml
  args : Yaml
deriving Repr, DecidableEq

/-- `Build.from_yaml` (challenge.py lines 254-268). -/
def Build.from_yaml (d0 : Yaml) : Except ParseErr Build :=
  match d0 with
  | Yaml.dict kvs =>
    let pc := ydictPopD kvs "context" (Yaml.str ".")
    let pd := ydictPopD pc.2 "dockerfile" (Yaml.str "Dockerfile")
    let pa := ydictPopD pd.2 "args" (Yaml.dict [])
    if pa.2 ≠ [] then Except.error (ParseErr.valueError "Extra fields")
    else Except.ok ⟨pc.1, pd.1, pa.1⟩
  | _ => Except.error (ParseErr.valueError "Expected dict")

/-- A parsed service: image reference (a string after `__init__`'s
`check_isinstance`), optional digest (`None` = `Yaml.null`), environment
mapping, optional build spec. -/
structure ServiceDefinition where
  image : String
  image_digest : Yaml
  environment : List (String × Yaml)
  build : Option Build
deriving Repr, DecidableEq

/-- `ServiceDefinition.equivalent` (challenge.py lines 181-192): when the
image is not the submission sentinel, both digests must be present
(non-`None`) and equal; in every case the environments must be equal.
`Except.error` is `raise NotEquivalent`. -/
def ServiceDefinition.equivalent (self other : ServiceDefinition) :
    Except String Unit :=
  match (if self.image ≠ SUBMISSION_CONTAINER_TAG then
           if self.image_digest = Yaml.null ∨ other.image_digest = Yaml.null then
             Except.error "No digest information, assuming different."
           else if self.image_digest ≠ other.image_digest then
             Except.error "Different digests"
           else Except.ok ()
         else Except.ok ()) with
  | Except.error e => Except.error e
  | Except.ok _ =>
    if self.environment ≠ other.environment then
      Except.error "Different environments"
    else Except.ok ()

/-- `ServiceDefinition.from_yaml` (challenge.py lines 197-225), without the
`wrap_config_reader` wrapping: `image` or `container` required, `environment`
defaults to `{}` (`None` becomes `{}`), optional `build`, optional
`image_digest`, extra fields rejected, then `__init__`'s type checks. -/
def ServiceDefinition.from_yaml_raw (d0 : Yaml) : Except ParseErr ServiceDefinition :=
  match d0 with
  | Yaml.dict kvs =>
    match (match ydictPop kvs "image" with
           | some p => Except.ok p
           | none =>
             match ydictPop kvs "container" with
             | some p => Except.ok p
             | none => Except.error (ParseErr.valueError "Need parameter image")) with
    | Except.error e => Except.error e
    | Except.ok (imageY, d1) =>
      let pe := ydictPopD d1 "environment" (Yaml.dict [])
      let envY := if pe.1 = Yaml.null then Yaml.dict [] else pe.1
      match (match ydictPop pe.2 "build" with
             | some (b, d2) =>
               if b = Yaml.null then Except.ok ((none : Option Build), d2)
               else
                 match Build.from_yaml b with
                 | Except.error e => Except.error e
                 | Except.ok bb => Except.ok (some bb, d2)
             | none => Except.ok (none, pe.2)) with
      | Except.error e => Except.error e
      | Except.ok (build, d2) =>
        let pdg := ydictPopD d2 "image_digest" Yaml.null
        if pdg.2 ≠ [] then Except.error (ParseErr.valueError "Extra fields")
        else
          match imageY, envY with
          | Yaml.str s, Yaml.dict envkvs => Except.ok ⟨s, pdg.1, envkvs, build⟩
          | _, _ => Except.error (ParseErr.valueError "Object not of expected type")
  | _ => Except.error (ParseErr.valueError "Expected dict")

def ServiceDefinition.from_yaml (d0 : Yaml) : Except ParseErr ServiceDefinition :=
  wrap_config_reader (ServiceDefinition.from_yaml_raw d0)

structure EvaluationParameters where
  version : Yaml
  services : List (String × ServiceDefinition)
deriving Repr, DecidableEq

/-- The loop `for k, v in services_.items(): services[k] = ...`. -/
def mapServices : List (String × Yaml) →
    Except ParseErr (List (String × ServiceDefinition))
  | [] => Except.ok []
  | (k, v) :: rest =>
    match ServiceDefinition.from_yaml v with
    | Except.error e => Except.error e
    | Except.ok sd =>
      match mapServices rest with
      | Except.error e => Except.error e
      | Except.ok ss => Except.ok ((k, sd) :: ss)

/-- `EvaluationParameters.from_yaml` (challenge.py lines 100-139), without
the `wrap_config_reader` wrapping: `services` required, must be a dict, and
`if not services_: raise ValueError('No services described.')`; `version`
defaults to `'3'`; each service parsed; extra fields rejected. -/
def EvaluationParameters.from_yaml_raw (d0 : Yaml) : Except ParseErr EvaluationParameters :=
  match d0 with
  | Yaml.dict kvs =>
    match ydictPop kvs "services" with
    | none => Except.error (ParseErr.invalidConfiguration "Missing config services")
    | some (servicesY, d1) =>
      match servicesY with
      | Yaml.dict svc =>
        if svc = [] then Except.error (ParseErr.valueError "No services described.")
        else
          let pv := ydictPopD d1 "version" (Yaml.str "3")
          match mapServices svc with
          | Except.error e => Except.error e
          | Except.ok services =>
            if pv.2 ≠ [] then Except.error (ParseErr.valueError "Invalid fields")
            else Except.ok ⟨pv.1, services⟩
      | _ => Except.error (ParseErr.valueError "Expected dict")
  | _ => Except.error (ParseErr.valueError "Expected dict")

def EvaluationParameters.from_yaml (d0 : Yaml) : Except ParseErr EvaluationParameters :=
  wrap_config_reader (EvaluationParameters.from_yaml_raw d0)

/-! ### `set_score` (cie_concrete.py lines 248-258) -/

/-- A Python float as far as `set_score` inspects it: `math.isnan` /
`math.isinf` classify it; the numeric payload of a finite float is irrelevant
to this code path and is carried opaquely. -/
inductive PyFloat where
  | finite (payload : Int)
  | nan
  | inf
  | ninf
deriving Repr, DecidableEq

def PyFloat.isNanOrInf : PyFloat → Bool
  | .finite _ => false
  | .nan => true
  | .inf => true
  | .ninf => true

/-- A Python value as passed to `set_score`: only `isinstance(value, float)`
is ever inspected. -/
inductive PyVal where
  | float (x : PyFloat)
  | int (n : Int)
  | str (s : String)
  | bool (b : Bool)
deriving Repr, DecidableEq

structure ReportedScore where
  name : String
  value : PyVal
  description : Option String
deriving Repr, DecidableEq

inductive ScoreErr where
  | valueError (msg : String)
  | invalidEvaluator (msg : String)
deriving Repr, DecidableEq

def scoresMem (scores : List (String × ReportedScore)) (name : String) : Bool :=
  (scores.find? (fun p => p.1 = name)).isSome

/-- `ChallengeInterfaceEvaluatorConcrete.set_score`: the NaN/infinity check
applies only when the value is a float, and it precedes the duplicate-name
check; insertion appends in insertion order. -/
def set_score (scores : List (String × ReportedScore)) (name : String)
    (value : PyVal) (description : Option String) :
    Except ScoreErr (List (String × ReportedScore)) :=
  match (match value with
         | PyVal.float x =>
           if x.isNanOrInf = true then
             Except.error (ScoreErr.valueError "we do not allow infinity or NaN")
           else Except.ok ()
         | _ => Except.ok ()) with
  | Except.error e => Except.error e
  | Except.ok _ =>
    if scoresMem scores name = true then
      Except.error (ScoreErr.invalidEvaluator "Already know score")
    else Except.ok (scores ++ [(name, ⟨name, value, description⟩)])

/-! ### `download_artefacts` (runner.py lines 511-551) -/

/-- One expected artefact: declared digest, declared size, and whether its
storage record has an `s3` entry. -/
structure ArtefactData where
  sha256hex : String
  size : Nat
  storage_s3 : Bool
deriving Repr, DecidableEq

/-- The externals of one loop iteration: whether `get_file_from_cache`
succeeds, whether an AWS config was passed, and the byte count
`os.stat(fn).st_size` of the fetched file. -/
structure DownloadCtx where
  in_cache : Bool
  aws_config : Bool
  fetched_size : Nat
deriving Repr, DecidableEq

inductive DownloadErr where
  | couldNotDownloadAll (msg : String)
  | valueError (msg : String)
deriving Repr, DecidableEq

/-- The body of `download_artefacts` for one artefact, with the local cache
as the set of digests it holds.  Note the order in the source: on a cache
miss with a configured s3 backend, `get_object` then `copy_to_cache` run
FIRST, and only then is `size_now != size` checked. -/
def download_artefact (ctx : DownloadCtx) (data : ArtefactData)
    (cache : List String) : Except DownloadErr Unit × List String :=
  if ctx.in_cache = true then (Except.ok (), cache)
  else if data.storage_s3 = true then
    if ctx.aws_config = false then
      (Except.error (DownloadErr.couldNotDownloadAll "I cannot download from s3"), cache)
    else
      let cache2 := data.sha256hex :: cache
      if ctx.fetched_size ≠ data.size then
        (Except.error (DownloadErr.valueError "Corrupt cache or download"), cache2)
      else (Except.ok (), cache2)
  else
    (Except.error (DownloadErr.couldNotDownloadAll "Not in cache and no way to download"), cache)

/-! ### The handshake wrappers (cie_concrete.py lines 356-519)

`wrap_solution` and `wrap_evaluator` interact with the world through
environment variables, files appearing in the session directory, and the
user-supplied callbacks.  Each run is embedded as a pure function of a
record describing those externals; the user callbacks are arbitrary Lean
functions from interface state to interface state plus an optional raised
exception, which covers every terminating behaviour of user code. -/

def SPECIAL_ABORT : String := "abort"

def SPECIAL_INVALID_ENVIRONMENT : String := "invalid-environment"

def SPECIAL_INVALID_EVALUATOR : String := "invalid-evaluator"

def SPECIAL_INVALID_SUBMISSION : String := "invalid-submission"

/-- The exceptions relevant to the wrappers: the three classified failures,
`Timeout`, and any other (`BaseException`) fault of user code. -/
inductive PyExc where
  | invalidSubmission (msg : String)
  | invalidEvaluator (msg : String)
  | invalidEnvironment (msg : String)
  | timeout (msg : String)
  | other (msg : String)
deriving Repr, DecidableEq

def pyExcMsg : PyExc → String
  | .invalidSubmission m => m
  | .invalidEvaluator m => m
  | .invalidEnvironment m => m
  | .timeout m => m
  | .other m => m

/-- Mutable state of `ChallengeInterfaceSolutionConcrete`: the output dict
(`None` until `set_solution_output_dict`), the declared-failure flag, and the
registered output files. -/
structure SolutionState where
  solution_output_dict : Option StrDict
  failure_declared : Bool
  failure_declared_msg : Option String
  solution_output_files : List String
deriving Repr, DecidableEq

def set_solution_output_dict (s : SolutionState) (d : StrDict) : SolutionState :=
  { s with solution_output_dict := some d }

/-- Externals of one `wrap_solution` run: the two environment variables, the
appearance of the challenge-description file within the timeout, the
parameters it contains once present, and the user `run` callback. -/
structure SolutionEnv where
  challenge_name : Option String
  step_name : Option String
  preparation_appears : Bool
  parameters : StrDict
  run : SolutionState → SolutionState × Option PyExc

/-- The try-block of `wrap_solution` (cie_concrete.py lines 462-498):
returns the exception escaping to the outer handlers (if any), the interface
state, and whether `solution.run` was invoked. -/
def wrap_solution_body (env : SolutionEnv) (s : SolutionState) :
    Option PyExc × SolutionState × Bool :=
  match env.challenge_name with
  | none => (some (PyExc.invalidEnvironment "DT_CHALLENGE_NAME missing"), s, false)
  | some _ =>
    match env.step_name with
    | none => (some (PyExc.invalidEnvironment "DT_CHALLENGE_STEP_NAME missing"), s, false)
    | some _ =>
      if env.preparation_appears = false then
        (some (PyExc.invalidEvaluator "Timeout while waiting for evaluator"), s, false)
      else if dictMem env.parameters SPECIAL_ABORT = true then
        (some (PyExc.invalidEvaluator "I will not run solution because evaluator has aborted"),
          s, false)
      else
        match env.run s with
        | (s1, some (PyExc.invalidSubmission m)) => (some (PyExc.invalidSubmission m), s1, true)
        | (s1, some (PyExc.invalidEnvironment m)) => (some (PyExc.invalidEnvironment m), s1, true)
        | (s1, some (PyExc.invalidEvaluator m)) => (some (PyExc.invalidEvaluator m), s1, true)
        | (s1, some (PyExc.timeout m)) =>
          (some (PyExc.invalidSubmission ("Uncaught exception in solution: " ++ m)), s1, true)
        | (s1, some (PyExc.other m)) =>
          (some (PyExc.invalidSubmission ("Uncaught exception in solution: " ++ m)), s1, true)
        | (s1, none) =>
          if s1.failure_declared = true then
            (some (PyExc.invalidSubmission "Submission declares failure"), s1, true)
          else if s1.solution_output_dict = none then
            (some (PyExc.invalidSubmission "solution_output_dict not set"), s1, true)
          else (none, s1, true)

/-- Observables of one `wrap_solution` run. `solution_output_yaml_file` is
the solution-output file: `none` would mean the file was never written,
`some d` that it was written carrying payload `d` (the payload itself is an
`Option StrDict` since `write_yaml` serializes `None` too). -/
structure WrapSolutionResult where
  caught : Option PyExc
  ranUserLogic : Bool
  solution_output_yaml_file : Option (Option StrDict)
  written_files : List String

/-- `wrap_solution` (cie_concrete.py lines 460-519): the outer handlers
inject the marker key for the caught failure class into the output dict, and
the `finally` block unconditionally writes the output file and the
registered output files. -/
def wrap_solution (env : SolutionEnv) : WrapSolutionResult :=
  let s0 : SolutionState := ⟨none, false, none, []⟩
  let body := wrap_solution_body env s0
  let s2 := match body.1 with
    | some (PyExc.invalidEnvironment m) =>
      set_solution_output_dict body.2.1 [(SPECIAL_INVALID_ENVIRONMENT, m)]
    | some (PyExc.invalidEvaluator m) =>
      set_solution_output_dict body.2.1 [(SPECIAL_INVALID_EVALUATOR, m)]
    | some (PyExc.invalidSubmission m) =>
      set_solution_output_dict body.2.1 [(SPECIAL_INVALID_SUBMISSION, m)]
    | some (PyExc.timeout m) =>
      set_solution_output_dict body.2.1 [(SPECIAL_INVALID_ENVIRONMENT, m)]
    | some (PyExc.other m) =>
      set_solution_output_dict body.2.1 [(SPECIAL_INVALID_ENVIRONMENT, m)]
    | none => body.2.1
  { caught := body.1,
    ranUserLogic := body.2.2,
    solution_output_yaml_file := some s2.solution_output_dict,
    written_files := s2.solution_output_files }

/-! ### `wrap_evaluator` (cie_concrete.py lines 363-418) -/

/-- `ChallengeResultsStatus` values. -/
inductive CRStatus where
  | success
  | failed
  | error
deriving Repr, DecidableEq

/-- Mutable state of `ChallengeInterfaceEvaluatorConcrete`: the challenge
parameters (`None` until set), registered challenge files, recorded score
names. -/
structure EvaluatorState where
  parameters : Option StrDict
  challenge_files : List String
  scores : List String
deriving Repr, DecidableEq

/-- Externals of one `wrap_evaluator` run. -/
structure EvaluatorEnv where
  prepare : EvaluatorState → EvaluatorState × Option PyExc
  solution_appears : Bool
  solution_output : StrDict
  score : EvaluatorState → EvaluatorState × Option PyExc

/-- The `declare(...)` status for an exception reaching the outer handlers:
`InvalidSubmission → FAILED`, everything else `→ ERROR`. -/
def declare_status_of : PyExc → CRStatus × String
  | .invalidSubmission m => (CRStatus.failed, m)
  | .invalidEvaluator m => (CRStatus.error, m)
  | .invalidEnvironment m => (CRStatus.error, m)
  | .timeout m => (CRStatus.error, m)
  | .other m => (CRStatus.error, m)

/-- Observables of one `wrap_evaluator` run: the challenge-parameters file
written by `after_prepare` (`none` = never written), and the terminal
`ChallengeResults` record (status and message). -/
structure WrapEvaluatorResult where
  written_params_file : Option StrDict
  declared : Option (CRStatus × String)
deriving Repr, DecidableEq

/-- `wrap_evaluator`: on any exception from `evaluator.prepare`, the
`except` block overwrites the parameters with `{SPECIAL_ABORT: msg}` and
re-raises; the `finally` block (`after_prepare`) then writes the parameters
file before the exception reaches the outer handlers. -/
def wrap_evaluator (env : EvaluatorEnv) : WrapEvaluatorResult :=
  let s0 : EvaluatorState := ⟨none, [], []⟩
  let prep := env.prepare s0
  let s2 := match prep.2 with
    | some e =>
      { prep.1 with parameters := some [(SPECIAL_ABORT, "Preparation aborted: " ++ pyExcMsg e)] }
    | none => prep.1
  match s2.parameters with
  | none =>
    { written_params_file := none,
      declared := some (CRStatus.error, "Parameters not set") }
  | some params =>
    match prep.2 with
    | some e =>
      { written_params_file := some params, declared := some (declare_status_of e) }
    | none =>
      if env.solution_appears = false then
        { written_params_file := some params,
          declared := some (CRStatus.failed, "Time out while waiting for solution") }
      else if dictMem env.solution_output SPECIAL_INVALID_ENVIRONMENT = true then
        { written_params_file := some params,
          declared := some (CRStatus.error, "invalid-environment reported by solution") }
      else if dictMem env.solution_output SPECIAL_INVALID_EVALUATOR = true then
        { written_params_file := some params,
          declared := some (CRStatus.error, "invalid-evaluator reported by solution") }
      else if dictMem env.solution_output SPECIAL_INVALID_SUBMISSION = true then
        { written_params_file := some params,
          declared := some (CRStatus.failed, "invalid-submission reported by solution") }
      else
        let sc := env.score s2
        match sc.2 with
        | some e =>
          { written_params_file := some params, declared := some (declare_status_of e) }
        | none =>
          if sc.1.scores = [] then
            { written_params_file := some params,
              declared := some (CRStatus.error, "No scores created") }
          else
            { written_params_file := some params,
              declared := some (CRStatus.success, "") }

/-! ### Basic lemmas about the dictionary model -/

theorem dictGet_filterOut (d : StrDict) (k : String) :
    dictGet (d.filter (fun p => p.1 ≠ k)) k = none := by
  unfold dictGet
  rw [Option.map_eq_none', List.find?_eq_none]
  intro p hp
  simp only [List.mem_filter, decide_eq_true_eq] at hp
  simpa using hp.2

theorem dictMem_filter_le (d : StrDict) (q : String × String → Bool) (k : String)
    (h : dictMem (d.filter q) k = true) : dictMem d k = true := by
  unfold dictMem dictGet at h ⊢
  rw [Option.isSome_map'] at h ⊢
  rw [List.find?_isSome] at h ⊢
  obtain ⟨x, hx, hpx⟩ := h
  exact ⟨x, List.mem_of_mem_filter hx, hpx⟩

theorem dictMem_dictPop (st st2 : StrDict) (k : String)
    (h : dictPop st k = some st2) : dictMem st2 k = false := by
  unfold dictPop at h
  by_cases hm : dictMem st k = true
  · simp only [hm, if_true] at h
    cases h
    unfold dictMem
    rw [dictGet_filterOut]
    rfl
  · simp [hm] at h

theorem dictMem_of_dictPop_mem (st st2 : StrDict) (k j : String)
    (h : dictPop st k = some st2) (hj : dictMem st2 j = true) :
    dictMem st j = true := by
  unfold dictPop at h
  by_cases hm : dictMem st k = true
  · simp only [hm, if_true] at h
    cases h
    exact dictMem_filter_le _ _ _ hj
  · simp [hm] at h

/-! ### Sanitization invariants -/

theorem popOrErr_mem_le (st st2 : StrDict) (k j : String)
    (h : popOrErr st k = Except.ok st2) (hj : dictMem st2 j = true) :
    dictMem st j = true := by
  unfold popOrErr at h
  cases hp : dictPop st k with
  | none => rw [hp] at h; cases h
  | some stA =>
    rw [hp] at h
    cases h
    exact dictMem_of_dictPop_mem _ _ _ _ hp hj

theorem popOrErr_absent (st st2 : StrDict) (k : String)
    (h : popOrErr st k = Except.ok st2) : dictMem st2 k = false := by
  unfold popOrErr at h
  cases hp : dictPop st k with
  | none => rw [hp] at h; cases h
  | some stA =>
    rw [hp] at h
    cases h
    exact dictMem_dictPop _ _ _ hp

/-- `sanitizeItem` never adds a key: any key of the result was already a key
of the input dictionary. -/
theorem sanitizeItem_mem_le (steps : List String) (st st1 : StrDict)
    (kv : String × String) (h : sanitizeItem steps st kv = Except.ok st1)
    (j : String) (hj : dictMem st1 j = true) : dictMem st j = true := by
  unfold sanitizeItem at h
  by_cases c1 : kv.1 ≠ STATE_START ∧ kv.1 ∉ steps
  · rw [if_pos c1] at h
    cases hp : popOrErr st kv.1 with
    | error e => rw [hp] at h; cases h
    | ok stA =>
      rw [hp] at h
      dsimp only at h
      by_cases c2 : kv.2 ∉ ALLOWED_JOB_STATUS
      · rw [if_pos c2] at h
        exact popOrErr_mem_le _ _ _ _ hp (popOrErr_mem_le _ _ _ _ h hj)
      · rw [if_neg c2] at h
        cases h
        exact popOrErr_mem_le _ _ _ _ hp hj
  · rw [if_neg c1] at h
    dsimp only at h
    by_cases c2 : kv.2 ∉ ALLOWED_JOB_STATUS
    · rw [if_pos c2] at h
      exact popOrErr_mem_le _ _ _ _ h hj
    · rw [if_neg c2] at h
      cases h
      exact hj

/-- A successful `sanitizeItem` on an item whose key is invalid (neither
`START` nor a declared step) leaves that key absent. -/
theorem sanitizeItem_drops_invalid (steps : List String) (st st1 : StrDict)
    (kv : String × String) (h : sanitizeItem steps st kv = Except.ok st1)
    (hk : kv.1 ≠ STATE_START ∧ kv.1 ∉ steps) : dictMem st1 kv.1 = false := by
  unfold sanitizeItem at h
  rw [if_pos hk] at h
  cases hp : popOrErr st kv.1 with
  | error e => rw [hp] at h; cases h
  | ok stA =>
    rw [hp] at h
    dsimp only at h
    by_cases c2 : kv.2 ∉ ALLOWED_JOB_STATUS
    · rw [if_pos c2] at h
      exact popOrErr_absent _ _ _ h
    · rw [if_neg c2] at h
      cases h
      exact popOrErr_absent _ _ _ hp

/-- A successful sanitization pass never adds a key. -/
theorem sanitize_mem_le (steps : List String) :
    ∀ (items : List (String × String)) (st st2 : StrDict),
      sanitize steps items st = Except.ok st2 →
      ∀ j, dictMem st2 j = true → dictMem st j = true := by
  intro items
  induction items with
  | nil =>
    intro st st2 h j hj
    unfold sanitize at h
    cases h
    exact hj
  | cons kv rest ih =>
    intro st st2 h j hj
    unfold sanitize at h
    cases h1 : sanitizeItem steps st kv with
    | error e => rw [h1] at h; cases h
    | ok st1 =>
      rw [h1] at h
      exact sanitizeItem_mem_le steps st st1 kv h1 j (ih st1 st2 h j hj)

/-- After a successful sanitization over a snapshot containing an item with an
invalid key, that key is absent from the result. -/
theorem sanitize_drops_invalid (steps : List String) :
    ∀ (items : List (String × String)) (st st2 : StrDict),
      sanitize steps items st = Except.ok st2 →
      ∀ kv ∈ items, kv.1 ≠ STATE_START ∧ kv.1 ∉ steps →
        dictMem st2 kv.1 = false := by
  intro items
  induction items with
  | nil =>
    intro st st2 _ kv hkv
    cases hkv
  | cons kv0 rest ih =>
    intro st st2 h kv hkv hk
    unfold sanitize at h
    cases h1 : sanitizeItem steps st kv0 with
    | error e => rw [h1] at h; cases h
    | ok st1 =>
      rw [h1] at h
      rcases List.mem_cons.mp hkv with heq | hmem
      · subst heq
        have habsent : dictMem st1 kv.1 = false :=
          sanitizeItem_drops_invalid steps st st1 kv h1 hk
        by_cases hfin : dictMem st2 kv.1 = true
        · have := sanitize_mem_le steps rest st1 st2 h kv.1 hfin
          rw [habsent] at this
          cases this
        · simpa using hfin
      · exact ih st1 st2 h kv hmem hk

theorem dictMem_exists (d : StrDict) (k : String) (h : dictMem d k = true) :
    ∃ p ∈ d, p.1 = k := by
  unfold dictMem dictGet at h
  rw [Option.isSome_map'] at h
  rw [List.find?_isSome] at h
  obtain ⟨p, hp, hpk⟩ := h
  exact ⟨p, hp, by simpa using hpk⟩

/-! ### Stepping lemmas for the transition loop -/

theorem runTransitions_not_fired (st : StrDict) (t : Transition)
    (ts : List Transition) (acc : List String)
    (h : ¬dictGet st t.first = some t.condition) :
    runTransitions st (t :: ts) acc = runTransitions st ts acc := by
  conv_lhs => unfold runTransitions
  rw [if_neg h]

theorem runTransitions_skip_active (st : StrDict) (t : Transition)
    (ts : List Transition) (acc : List String)
    (h1 : dictGet st t.first = some t.condition)
    (h2 : dictMem st t.second = true ∧ dictGet st t.second ≠ some STATUS_ABORTED) :
    runTransitions st (t :: ts) acc = runTransitions st ts acc := by
  conv_lhs => unfold runTransitions
  rw [if_pos h1, if_pos h2]

theorem runTransitions_append_step (st : StrDict) (t : Transition)
    (ts : List Transition) (acc : List String)
    (h1 : dictGet st t.first = some t.condition)
    (h2 : ¬(dictMem st t.second = true ∧ dictGet st t.second ≠ some STATUS_ABORTED))
    (h3 : t.second ∉ terminalStates) :
    runTransitions st (t :: ts) acc = runTransitions st ts (acc ++ [t.second]) := by
  conv_lhs => unfold runTransitions
  rw [if_pos h1, if_neg h2, if_neg h3]

theorem runTransitions_terminal_fire (st : StrDict) (t : Transition)
    (ts : List Transition) (acc : List String)
    (hfire : dictGet st t.first = some t.condition)
    (hnotin : dictMem st t.second = false)
    (hterm : t.second ∈ terminalStates) :
    runTransitions st (t :: ts) acc = ⟨true, some (pyLower t.second), []⟩ := by
  conv_lhs => unfold runTransitions
  have h2 : ¬(dictMem st t.second = true ∧ dictGet st t.second ≠ some STATUS_ABORTED) := by
    intro hc
    rw [hnotin] at hc
    exact Bool.false_ne_true hc.1
  rw [if_pos hfire, if_neg h2, if_pos hterm]

/-- Walking a prefix `L1` in which no fired, non-skipped transition is
terminal, the loop reaches `t` and (if `t` fires on a terminal target that is
absent from the status) short-circuits, discarding the accumulator. -/
theorem runTransitions_first_terminal (st : StrDict) (t : Transition)
    (L2 : List Transition)
    (hfire : dictGet st t.first = some t.condition)
    (hnotin : dictMem st t.second = false)
    (hterm : t.second ∈ terminalStates) :
    ∀ (L1 : List Transition),
      (∀ u ∈ L1, dictGet st u.first = some u.condition →
        ¬(dictMem st u.second = true ∧ dictGet st u.second ≠ some STATUS_ABORTED) →
        u.second ∉ terminalStates) →
      ∀ acc, runTransitions st (L1 ++ t :: L2) acc
        = ⟨true, some (pyLower t.second), []⟩ := by
  intro L1
  induction L1 with
  | nil =>
    intro _ acc
    simpa using runTransitions_terminal_fire st t L2 acc hfire hnotin hterm
  | cons u L1 ih =>
    intro hprev acc
    rw [List.cons_append]
    by_cases h1 : dictGet st u.first = some u.condition
    · by_cases h2 : dictMem st u.second = true ∧ dictGet st u.second ≠ some STATUS_ABORTED
      · rw [runTransitions_skip_active st u _ acc h1 h2]
        exact ih (fun v hv => hprev v (List.mem_cons_of_mem u hv)) acc
      · have hnt : u.second ∉ terminalStates := hprev u (List.mem_cons_self u L1) h1 h2
        rw [runTransitions_append_step st u _ acc h1 h2 hnt]
        exact ih (fun v hv => hprev v (List.mem_cons_of_mem u hv)) (acc ++ [u.second])
    · rw [runTransitions_not_fired st u _ acc h1]
      exact ih (fun v hv => hprev v (List.mem_cons_of_mem u hv)) acc

/-! ### Claim theorems for the transition engine -/

/-- C1: for a status map containing `START ↦ success`, `get_next_steps`
walks the transitions in declaration order; at the first fired transition
whose target is a terminal value (a value that is not a declared step, hence
absent from the sanitized map) it returns `finished = true`, the terminal
outcome lower-cased, and an empty activation list — independently of all
later transitions `L2` and of any activations accumulated before. -/
theorem get_next_steps_terminal_short_circuit
    (ct : ChallengeTransitions) (status st : StrDict)
    (hmem : dictMem status STATE_START = true)
    (hsucc : dictGet status STATE_START = some "success")
    (hsan : sanitize ct.steps status status = Except.ok st)
    (L1 L2 : List Transition) (t : Transition)
    (hsplit : ct.transitions = L1 ++ t :: L2)
    (hfire : dictGet st t.first = some t.condition)
    (hterm : t.second ∈ terminalStates)
    (hnostep : t.second ∉ ct.steps)
    (hprev : ∀ u ∈ L1, dictGet st u.first = some u.condition →
      ¬(dictMem st u.second = true ∧ dictGet st u.second ≠ some STATUS_ABORTED) →
      u.second ∉ terminalStates) :
    get_next_steps ct status = Except.ok ⟨true, some (pyLower t.second), []⟩ := by
  have hnotstart : t.second ≠ STATE_START := by
    have hcases : t.second = STATE_ERROR ∨ t.second = STATE_FAILED ∨ t.second = STATE_SUCCESS := by
      simpa [terminalStates] using hterm
    rcases hcases with h | h | h <;> rw [h] <;> decide
  have hnotin : dictMem st t.second = false := by
    by_cases hm : dictMem status t.second = true
    · obtain ⟨p, hp, hpk⟩ := dictMem_exists status t.second hm
      have hdrop := sanitize_drops_invalid ct.steps status status st hsan p hp
        ⟨by rw [hpk]; exact hnotstart, by rw [hpk]; exact hnostep⟩
      rw [hpk] at hdrop
      exact hdrop
    · by_cases hf : dictMem st t.second = true
      · exact absurd (sanitize_mem_le ct.steps status status st hsan t.second hf) hm
      · simpa using hf
  unfold get_next_steps
  rw [if_neg (fun hc => hc hmem), if_neg (fun hc => hc hsucc), hsan]
  dsimp only
  rw [hsplit]
  exact congrArg Except.ok
    (runTransitions_first_terminal st t L2 hfire hnotin hterm L1 hprev [])

/-- Witness for C1: the spec's own example — transitions
`[(START, success, s1), (s1, success, SUCCESS), (s1, failed, FAILED)]` with
status `{START: success, s1: success}` finish with outcome `success` and an
empty activation list. -/
theorem get_next_steps_terminal_short_circuit_witness :
    get_next_steps
        ⟨[⟨"START", "success", "s1"⟩, ⟨"s1", "success", "SUCCESS"⟩,
          ⟨"s1", "failed", "FAILED"⟩], ["s1"]⟩
        [("START", "success"), ("s1", "success")]
      = Except.ok ⟨true, some "success", []⟩ := by
  have h := get_next_steps_terminal_short_circuit
    ⟨[⟨"START", "success", "s1"⟩, ⟨"s1", "success", "SUCCESS"⟩,
      ⟨"s1", "failed", "FAILED"⟩], ["s1"]⟩
    [("START", "success"), ("s1", "success")]
    [("START", "success"), ("s1", "success")]
    (by rfl) (by rfl) (by rfl)
    [⟨"START", "success", "s1"⟩] [⟨"s1", "failed", "FAILED"⟩]
    ⟨"s1", "success", "SUCCESS"⟩
    (by rfl) (by rfl) (by decide) (by decide) (by decide)
  simpa using h

/-- C2 (code bug witness): on a status map with an entry whose key is invalid
AND whose value is an invalid job status, the sanitization of
`get_next_steps` pops the key twice — the second `status.pop(k)` raises
`KeyError` instead of log-and-dropping. -/
theorem get_next_steps_sanitize_keyerror :
    get_next_steps ⟨[⟨"START", "success", "s1"⟩], ["s1"]⟩
        [("START", "success"), ("bogus", "not-a-status")]
      = Except.error (PyError.keyError "bogus") := by rfl

/-- C3: a fired transition targeting a step is (1) skipped when the step has
a status in the sanitized map other than `aborted`; (2) appended to the
activation list when the step has no status or status `aborted`; and (3) the
activation list is not de-duplicated (two identical fired transitions
activate the step twice). -/
theorem runTransitions_step_activation :
    (∀ (st : StrDict) (t : Transition) (ts : List Transition) (acc : List String),
        dictGet st t.first = some t.condition →
        dictMem st t.second = true →
        dictGet st t.second ≠ some STATUS_ABORTED →
        runTransitions st (t :: ts) acc = runTransitions st ts acc)
    ∧ (∀ (st : StrDict) (t : Transition) (ts : List Transition) (acc : List String),
        dictGet st t.first = some t.condition →
        (dictGet st t.second = none ∨ dictGet st t.second = some STATUS_ABORTED) →
        t.second ∉ terminalStates →
        runTransitions st (t :: ts) acc = runTransitions st ts (acc ++ [t.second]))
    ∧ get_next_steps ⟨[⟨"START", "success", "s1"⟩, ⟨"START", "success", "s1"⟩], ["s1"]⟩
        [("START", "success")]
      = Except.ok ⟨false, none, ["s1", "s1"]⟩ := by
  refine ⟨?_, ?_, by rfl⟩
  · intro st t ts acc h1 h2 h3
    exact runTransitions_skip_active st t ts acc h1 ⟨h2, h3⟩
  · intro st t ts acc h1 h2 h3
    refine runTransitions_append_step st t ts acc h1 ?_ h3
    intro hc
    rcases h2 with h2 | h2
    · rw [dictMem, h2] at hc
      exact Bool.false_ne_true hc.1
    · exact hc.2 h2

/-- Witness for C3: with `s1 ↦ success` the transition from `START` is
skipped; with `s1 ↦ aborted` it is re-activated. -/
theorem runTransitions_step_activation_witness :
    (runTransitions [("START", "success"), ("s1", "success")]
        [⟨"START", "success", "s1"⟩] []
      = runTransitions [("START", "success"), ("s1", "success")] [] [])
    ∧ (runTransitions [("START", "success"), ("s1", "aborted")]
        [⟨"START", "success", "s1"⟩] []
      = runTransitions [("START", "success"), ("s1", "aborted")] [] ["s1"]) := by
  constructor
  · exact runTransitions_step_activation.1 _ ⟨"START", "success", "s1"⟩ [] []
      (by rfl) (by rfl) (by decide)
  · exact runTransitions_step_activation.2.1 _ ⟨"START", "success", "s1"⟩ [] []
      (by rfl) (Or.inr (by rfl)) (by decide)

theorem heapRead_heapWrite_ne (h : PyHeap) (r j : Nat) (v : StrDict)
    (hne : r ≠ j) : heapRead (heapWrite h r v) j = heapRead h j := by
  unfold heapRead heapWrite
  rw [List.getElem?_set_ne hne]

theorem sanitizeItemHeap_frame (steps : List String) (r : Nat) (h : PyHeap)
    (kv : String × String) (j : Nat) (hne : r ≠ j) :
    heapRead (sanitizeItemHeap steps r h kv).1 j = heapRead h j := by
  unfold sanitizeItemHeap
  by_cases c1 : kv.1 ≠ STATE_START ∧ kv.1 ∉ steps
  · rw [if_pos c1]
    cases hp : dictPop (heapRead h r) kv.1 with
    | none => rfl
    | some stA =>
      dsimp only
      by_cases c2 : kv.2 ∉ ALLOWED_JOB_STATUS
      · rw [if_pos c2]
        cases hp2 : dictPop (heapRead (heapWrite h r stA) r) kv.1 with
        | none => exact heapRead_heapWrite_ne h r j stA hne
        | some stB =>
          dsimp only
          rw [heapRead_heapWrite_ne _ r j stB hne,
            heapRead_heapWrite_ne h r j stA hne]
      · rw [if_neg c2]
        exact heapRead_heapWrite_ne h r j stA hne
  · rw [if_neg c1]
    dsimp only
    by_cases c2 : kv.2 ∉ ALLOWED_JOB_STATUS
    · rw [if_pos c2]
      cases hp2 : dictPop (heapRead h r) kv.1 with
      | none => rfl
      | some stB => exact heapRead_heapWrite_ne h r j stB hne
    · rw [if_neg c2]

theorem sanitizeHeap_frame (steps : List String) :
    ∀ (items : List (String × String)) (r : Nat) (h : PyHeap) (j : Nat),
      r ≠ j → heapRead (sanitizeHeap steps items r h).1 j = heapRead h j := by
  intro items
  induction items with
  | nil => intro r h j _; rfl
  | cons kv rest ih =>
    intro r h j hne
    unfold sanitizeHeap
    cases hi : sanitizeItemHeap steps r h kv with
    | mk h1 oe =>
      have hstep : heapRead h1 j = heapRead h j := by
        have := sanitizeItemHeap_frame steps r h kv j hne
        rw [hi] at this
        exact this
      cases oe with
      | some e => exact hstep
      | none =>
        dsimp only
        rw [ih r h1 j hne, hstep]

/-- C9: `get_next_steps` never mutates the caller's status dictionary: over
the heap model, the object the caller passed reads back unchanged on every
path (success, `KeyError` during sanitization, or assertion failure) —
sanitization pops act only on the fresh copy made by `dict(**status)`. -/
theorem get_next_steps_frame (ct : ChallengeTransitions) (h : PyHeap) (r : Nat)
    (hr : r < h.cells.length) :
    heapRead (get_next_steps_heap ct h r).2 r = heapRead h r := by
  unfold get_next_steps_heap
  by_cases a1 : dictMem (heapRead h r) STATE_START ≠ true
  · rw [if_pos a1]
  · rw [if_neg a1]
    by_cases a2 : dictGet (heapRead h r) STATE_START ≠ some "success"
    · rw [if_pos a2]
    · rw [if_neg a2]
      dsimp only
      have halloc : heapRead ⟨h.cells ++ [heapRead h r]⟩ r = heapRead h r := by
        unfold heapRead
        dsimp only
        rw [List.getElem?_append, if_pos hr]
      have hne : h.cells.length ≠ r := Nat.ne_of_gt hr
      cases hs : sanitizeHeap ct.steps (heapRead h r) (heapAlloc h (heapRead h r)).1
          (heapAlloc h (heapRead h r)).2 with
      | mk h3 oe =>
        have hframe : heapRead h3 r = heapRead h r := by
          have := sanitizeHeap_frame ct.steps (heapRead h r) (heapAlloc h (heapRead h r)).1
            (heapAlloc h (heapRead h r)).2 r hne
          rw [hs] at this
          rw [this]
          exact halloc
        cases oe with
        | some e => exact hframe
        | none => exact hframe

/-- Witness for C9: a concrete one-cell heap. -/
theorem get_next_steps_frame_witness :
    heapRead (get_next_steps_heap ⟨[⟨"START", "success", "s1"⟩], ["s1"]⟩
        ⟨[[("START", "success"), ("junk", "junk")]]⟩ 0).2 0
      = [("START", "success"), ("junk", "junk")] := by
  rw [get_next_steps_frame ⟨[⟨"START", "success", "s1"⟩], ["s1"]⟩
    ⟨[[("START", "success"), ("junk", "junk")]]⟩ 0 (by decide)]
  rfl

/-! ### Claim theorems for the parsers -/

/-- C7 counterexample: a scoring block with zero entries parses successfully
(`Scoring.from_yaml` has no emptiness check), contradicting the claim that it
is rejected. -/
theorem scoring_from_yaml_accepts_empty :
    Scoring.from_yaml (Yaml.dict [("scores", Yaml.list [])])
      = Except.ok ⟨[]⟩ := by rfl

/-- C7 (amended): an `EvaluationParameters` block whose `services` mapping is
empty is rejected with a parse error, while a scoring block whose `scores`
list is empty (and which has no other keys) parses successfully into an empty
score list. -/
theorem evaluation_parameters_rejects_empty_services :
    (∀ (kvs d1 : List (String × Yaml)),
      ydictPop kvs "services" = some (Yaml.dict [], d1) →
      EvaluationParameters.from_yaml (Yaml.dict kvs)
        = Except.error
            (ParseErr.invalidConfiguration "Could not interpret the configuration data"))
    ∧ (∀ (kvs : List (String × Yaml)),
      ydictPop kvs "scores" = some (Yaml.list [], []) →
      Scoring.from_yaml (Yaml.dict kvs) = Except.ok ⟨[]⟩) := by
  constructor
  · intro kvs d1 h
    unfold EvaluationParameters.from_yaml EvaluationParameters.from_yaml_raw
    dsimp only
    rw [h]
    rfl
  · intro kvs h
    unfold Scoring.from_yaml
    dsimp only
    rw [h]
    rfl

/-- Witness for C7: concrete empty `services` and empty `scores` blocks. -/
theorem evaluation_parameters_rejects_empty_services_witness :
    (EvaluationParameters.from_yaml
        (Yaml.dict [("services", Yaml.dict []), ("version", Yaml.str "3")])
      = Except.error
          (ParseErr.invalidConfiguration "Could not interpret the configuration data"))
    ∧ Scoring.from_yaml (Yaml.dict [("scores", Yaml.list [])]) = Except.ok ⟨[]⟩ := by
  constructor
  · exact evaluation_parameters_rejects_empty_services.1
      [("services", Yaml.dict []), ("version", Yaml.str "3")]
      [("version", Yaml.str "3")] (by rfl)
  · exact evaluation_parameters_rejects_empty_services.2
      [("scores", Yaml.list [])] (by rfl)

/-- C8: `ServiceDefinition.equivalent` succeeds (does not raise
`NotEquivalent`) iff the environments are equal and either the image is the
submission sentinel or both image digests are present (not `None`) and
equal. -/
theorem service_definition_equivalent_iff (a b : ServiceDefinition) :
    a.equivalent b = Except.ok () ↔
      (a.environment = b.environment ∧
        (a.image = SUBMISSION_CONTAINER_TAG ∨
          (a.image_digest ≠ Yaml.null ∧ b.image_digest ≠ Yaml.null ∧
            a.image_digest = b.image_digest))) := by
  unfold ServiceDefinition.equivalent
  by_cases h1 : a.image = SUBMISSION_CONTAINER_TAG
  · rw [if_neg (by simpa using h1)]
    dsimp only
    by_cases henv : a.environment = b.environment
    · rw [if_neg (fun hc => hc henv)]
      simp [henv, h1]
    · rw [if_pos henv]
      simp [henv]
  · rw [if_pos h1]
    by_cases h2 : a.image_digest = Yaml.null ∨ b.image_digest = Yaml.null
    · rw [if_pos h2]
      dsimp only
      rcases h2 with h2 | h2 <;> simp [h1, h2]
    · rw [if_neg h2]
      rcases not_or.mp h2 with ⟨hA, hB⟩
      by_cases h3 : a.image_digest = b.image_digest
      · rw [if_neg (fun hc => hc h3)]
        dsimp only
        by_cases henv : a.environment = b.environment
        · rw [if_neg (fun hc => hc henv)]
          simp [henv, h1, h3, hA, hB]
        · rw [if_pos henv]
          simp [henv]
      · rw [if_pos h3]
        dsimp only
        simp [h1, h3]

/-- Witness for C8: two services with distinct non-sentinel images but equal
digests and equal environments are equivalent. -/
theorem service_definition_equivalent_iff_witness :
    (ServiceDefinition.mk "img-a" (Yaml.str "sha256:d") [("K", Yaml.str "v")] none).equivalent
      (ServiceDefinition.mk "img-b" (Yaml.str "sha256:d") [("K", Yaml.str "v")] none)
      = Except.ok () :=
  (service_definition_equivalent_iff _ _).mpr
    ⟨rfl, Or.inr ⟨by decide, by decide, rfl⟩⟩

/-! ### Claim theorems for `set_score`, the downloads and the wrappers -/

/-- C10: the NaN/infinity rejection applies only to floats — any non-float
value under a fresh name is stored without a finiteness or type check, while
a NaN/infinite float raises `ValueError` unconditionally, in particular
before the duplicate-name check (no freshness hypothesis is needed). -/
theorem set_score_float_only_check :
    (∀ (scores : List (String × ReportedScore)) (name : String) (v : PyVal)
        (d : Option String),
      (∀ x, v ≠ PyVal.float x) →
      scoresMem scores name = false →
      set_score scores name v d
        = Except.ok (scores ++ [(name, ⟨name, v, d⟩)]))
    ∧ (∀ (scores : List (String × ReportedScore)) (name : String) (x : PyFloat)
        (d : Option String),
      x.isNanOrInf = true →
      set_score scores name (PyVal.float x) d
        = Except.error (ScoreErr.valueError "we do not allow infinity or NaN")) := by
  constructor
  · intro scores name v d hnf hmem
    cases v with
    | float x => exact absurd rfl (hnf x)
    | int n =>
      unfold set_score
      dsimp only
      rw [if_neg (by simp [hmem])]
    | str s =>
      unfold set_score
      dsimp only
      rw [if_neg (by simp [hmem])]
    | bool b =>
      unfold set_score
      dsimp only
      rw [if_neg (by simp [hmem])]
  · intro scores name x d hx
    unfold set_score
    dsimp only
    rw [if_pos hx]

/-- Witness for C10: an integer score is stored unchecked; a NaN float is
rejected with `ValueError` even though the name is already taken (the
duplicate check, which would raise `InvalidEvaluator`, is never reached). -/
theorem set_score_float_only_check_witness :
    set_score [] "score1" (PyVal.int 42) none
        = Except.ok [("score1", ⟨"score1", PyVal.int 42, none⟩)]
    ∧ set_score [("s", ⟨"s", PyVal.int 1, none⟩)] "s" (PyVal.float PyFloat.nan) none
        = Except.error (ScoreErr.valueError "we do not allow infinity or NaN") := by
  constructor
  · exact set_score_float_only_check.1 [] "score1" (PyVal.int 42) none
      (fun x hc => by cases hc) (by rfl)
  · exact set_score_float_only_check.2 [("s", ⟨"s", PyVal.int 1, none⟩)] "s"
      PyFloat.nan none (by rfl)

/-- C6 counterexample: a fetched artefact whose byte count (7) differs from
its declared size (10) raises the integrity `ValueError`, but its digest IS
in the local cache afterwards — `copy_to_cache` runs before the size check —
contradicting "the fetched content never enters the local cache". -/
theorem download_artefact_counterexample :
    (download_artefact ⟨false, true, 7⟩ ⟨"deadbeef", 10, true⟩ []).1
        = Except.error (DownloadErr.valueError "Corrupt cache or download")
    ∧ "deadbeef" ∈ (download_artefact ⟨false, true, 7⟩ ⟨"deadbeef", 10, true⟩ []).2 := by
  constructor
  · rfl
  · have h2 : (download_artefact ⟨false, true, 7⟩ ⟨"deadbeef", 10, true⟩ []).2
        = ["deadbeef"] := rfl
    rw [h2]
    exact List.mem_singleton_self _

/-- C6 (amended): on a cache miss with a configured s3 backend, a size
mismatch raises the hard integrity failure (`ValueError`, not retried), but
the fetched content has by then already been inserted into the local cache
(`copy_to_cache` precedes the size verification). -/
theorem download_artefact_size_mismatch
    (ctx : DownloadCtx) (data : ArtefactData) (cache : List String)
    (h1 : ctx.in_cache = false) (h2 : data.storage_s3 = true)
    (h3 : ctx.aws_config = true) (h4 : ctx.fetched_size ≠ data.size) :
    (download_artefact ctx data cache).1
        = Except.error (DownloadErr.valueError "Corrupt cache or download")
    ∧ (download_artefact ctx data cache).2 = data.sha256hex :: cache := by
  unfold download_artefact
  rw [if_neg (by simp [h1]), if_pos h2, if_neg (by simp [h3])]
  dsimp only
  rw [if_pos h4]
  exact ⟨rfl, rfl⟩

/-- Witness for C6 (amended). -/
theorem download_artefact_size_mismatch_witness :
    (download_artefact ⟨false, true, 3⟩ ⟨"aabb", 5, true⟩ ["zz"]).1
        = Except.error (DownloadErr.valueError "Corrupt cache or download")
    ∧ (download_artefact ⟨false, true, 3⟩ ⟨"aabb", 5, true⟩ ["zz"]).2
        = ["aabb", "zz"] := by
  exact download_artefact_size_mismatch ⟨false, true, 3⟩ ⟨"aabb", 5, true⟩ ["zz"]
    rfl rfl rfl (by decide)

/-- C4: on every exit path of `wrap_solution` the solution-output file is
written (the `finally` block runs); a classified failure injects its marker
key into the written output mapping; and the registered output files are
written regardless of the path taken. -/
theorem wrap_solution_always_writes (env : SolutionEnv) :
    (∃ d, (wrap_solution env).solution_output_yaml_file = some d)
    ∧ (wrap_solution env).written_files
        = (wrap_solution_body env ⟨none, false, none, []⟩).2.1.solution_output_files
    ∧ (∀ m, (wrap_solution env).caught = some (PyExc.invalidEnvironment m) →
        (wrap_solution env).solution_output_yaml_file
          = some (some [(SPECIAL_INVALID_ENVIRONMENT, m)]))
    ∧ (∀ m, (wrap_solution env).caught = some (PyExc.invalidEvaluator m) →
        (wrap_solution env).solution_output_yaml_file
          = some (some [(SPECIAL_INVALID_EVALUATOR, m)]))
    ∧ (∀ m, (wrap_solution env).caught = some (PyExc.invalidSubmission m) →
        (wrap_solution env).solution_output_yaml_file
          = some (some [(SPECIAL_INVALID_SUBMISSION, m)])) := by
  unfold wrap_solution
  dsimp only
  rcases hb : wrap_solution_body env ⟨none, false, none, []⟩ with ⟨exc, s1, ran⟩
  dsimp only
  cases exc with
  | none =>
    refine ⟨⟨_, rfl⟩, rfl, ?_, ?_, ?_⟩ <;> intro m hm <;> cases hm
  | some e =>
    cases e with
    | invalidSubmission m0 =>
      refine ⟨⟨_, rfl⟩, rfl, ?_, ?_, ?_⟩ <;> intro m hm <;>
        simp_all [set_solution_output_dict]
    | invalidEvaluator m0 =>
      refine ⟨⟨_, rfl⟩, rfl, ?_, ?_, ?_⟩ <;> intro m hm <;>
        simp_all [set_solution_output_dict]
    | invalidEnvironment m0 =>
      refine ⟨⟨_, rfl⟩, rfl, ?_, ?_, ?_⟩ <;> intro m hm <;>
        simp_all [set_solution_output_dict]
    | timeout m0 =>
      refine ⟨⟨_, rfl⟩, rfl, ?_, ?_, ?_⟩ <;> intro m hm <;>
        simp_all [set_solution_output_dict]
    | other m0 =>
      refine ⟨⟨_, rfl⟩, rfl, ?_, ?_, ?_⟩ <;> intro m hm <;>
        simp_all [set_solution_output_dict]

/-- Witness for C4: a solution whose `run` raises an unclassified exception;
the output file is written carrying the submission-failure marker. -/
theorem wrap_solution_always_writes_witness :
    (wrap_solution ⟨some "chal", some "step", true, [],
        fun s => (s, some (PyExc.other "boom"))⟩).solution_output_yaml_file
      = some (some [(SPECIAL_INVALID_SUBMISSION,
          "Uncaught exception in solution: boom")]) := by
  exact (wrap_solution_always_writes _).2.2.2.2 _ (by rfl)

/-- C5: (1) if `evaluator.prepare` raises any exception, `wrap_evaluator`
persists a parameters mapping tagged with the abort marker before the
failure reaches the outer handlers, which then declare a non-SUCCESS result;
(2) if the parameters read by `wrap_solution` carry the abort marker, the
solution raises `InvalidEvaluator` without ever invoking `solution.run`. -/
theorem evaluator_abort_handshake :
    (∀ (env : EvaluatorEnv) (s1 : EvaluatorState) (e : PyExc),
      env.prepare ⟨none, [], []⟩ = (s1, some e) →
      (wrap_evaluator env).written_params_file
          = some [(SPECIAL_ABORT, "Preparation aborted: " ++ pyExcMsg e)]
        ∧ (wrap_evaluator env).declared = some (declare_status_of e)
        ∧ (declare_status_of e).1 ≠ CRStatus.success)
    ∧ (∀ env : SolutionEnv,
      env.challenge_name.isSome = true →
      env.step_name.isSome = true →
      env.preparation_appears = true →
      dictMem env.parameters SPECIAL_ABORT = true →
      (wrap_solution env).ranUserLogic = false
        ∧ (wrap_solution env).caught
            = some (PyExc.invalidEvaluator
                "I will not run solution because evaluator has aborted")) := by
  constructor
  · intro env s1 e h
    unfold wrap_evaluator
    dsimp only
    rw [h]
    dsimp only
    refine ⟨rfl, rfl, ?_⟩
    cases e <;> simp [declare_status_of]
  · intro env h1 h2 h3 h4
    obtain ⟨cn, hcn⟩ := Option.isSome_iff_exists.mp h1
    obtain ⟨sn, hsn⟩ := Option.isSome_iff_exists.mp h2
    unfold wrap_solution wrap_solution_body
    dsimp only
    rw [hcn, hsn]
    dsimp only
    rw [if_neg (by simp [h3]), if_pos h4]
    exact ⟨rfl, rfl⟩

/-- Witness for C5: a prepare that raises an unclassified exception leads to
an abort-tagged parameters file; a solution reading that file skips its run
logic. -/
theorem evaluator_abort_handshake_witness :
    (wrap_evaluator ⟨fun s => (s, some (PyExc.other "kaboom")), true, [],
        fun s => (s, none)⟩).written_params_file
      = some [(SPECIAL_ABORT, "Preparation aborted: kaboom")]
    ∧ (wrap_solution ⟨some "chal", some "step", true,
        [("abort", "Preparation aborted: kaboom")],
        fun s => (s, none)⟩).ranUserLogic = false := by
  constructor
  · exact (evaluator_abort_handshake.1 _ _ (PyExc.other "kaboom") (by rfl)).1
  · exact (evaluator_abort_handshake.2 _ (by rfl) (by rfl) (by rfl) (by rfl)).1

end DTC
